import Mathlib

/-!
Verification of the star-system simulator (`object_klasses.py`,
`helperfunctions.py`).  The data model (parsed celestial-body records) is
embedded over `ℚ` (the parsed numeric fields are plain decimal literals);
the simulation state (positions, momenta) is embedded over `ℝ` because the
integrator divides by the Euclidean magnitude `mag` (a square root) and the
satellite animation uses `cos`/`sin`.
-/

set_option autoImplicit false

namespace StarSim

/-- 3-vectors with real components, mirroring `vpython.vector`. -/
@[ext]
structure Vec3 where
  x : ℝ
  y : ℝ
  z : ℝ

namespace Vec3

instance : Zero Vec3 := ⟨⟨0, 0, 0⟩⟩

instance : Add Vec3 := ⟨fun a b => ⟨a.x + b.x, a.y + b.y, a.z + b.z⟩⟩

instance : Sub Vec3 := ⟨fun a b => ⟨a.x - b.x, a.y - b.y, a.z - b.z⟩⟩

/-- Scalar multiplication `a * v` (vpython `scalar * vector`). -/
instance : SMul ℝ Vec3 := ⟨fun a v => ⟨a * v.x, a * v.y, a * v.z⟩⟩

/-- Scalar division `v / a` (vpython `vector / scalar`). -/
noncomputable instance : HDiv Vec3 ℝ Vec3 := ⟨fun v a => ⟨v.x / a, v.y / a, v.z / a⟩⟩

theorem zero_def : (0 : Vec3) = ⟨0, 0, 0⟩ := rfl

theorem add_def (a b : Vec3) : a + b = ⟨a.x + b.x, a.y + b.y, a.z + b.z⟩ := rfl

theorem sub_def (a b : Vec3) : a - b = ⟨a.x - b.x, a.y - b.y, a.z - b.z⟩ := rfl

theorem smul_def (a : ℝ) (v : Vec3) : a • v = ⟨a * v.x, a * v.y, a * v.z⟩ := rfl

theorem div_def (v : Vec3) (a : ℝ) : v / a = ⟨v.x / a, v.y / a, v.z / a⟩ := rfl

theorem add_sub_cancel_left (a b : Vec3) : (a + b) - a = b := by
  ext <;> simp [add_def, sub_def]

/-- Squared Euclidean magnitude. -/
def magSq (v : Vec3) : ℝ := v.x ^ 2 + v.y ^ 2 + v.z ^ 2

/-- Euclidean magnitude, `vpython.mag`. -/
noncomputable def mag (v : Vec3) : ℝ := Real.sqrt (magSq v)

/-- Unit vector, `vpython.norm` (`v / mag v`). -/
noncomputable def vnorm (v : Vec3) : Vec3 := v / mag v

theorem magSq_nonneg (v : Vec3) : 0 ≤ magSq v := by
  unfold magSq; positivity

theorem mag_nonneg (v : Vec3) : 0 ≤ mag v := Real.sqrt_nonneg _

theorem magSq_eq_zero_iff (v : Vec3) : magSq v = 0 ↔ v = 0 := by
  unfold magSq
  constructor
  · intro h
    have hx : v.x = 0 := by nlinarith [sq_nonneg v.x, sq_nonneg v.y, sq_nonneg v.z]
    have hy : v.y = 0 := by nlinarith [sq_nonneg v.x, sq_nonneg v.y, sq_nonneg v.z]
    have hz : v.z = 0 := by nlinarith [sq_nonneg v.x, sq_nonneg v.y, sq_nonneg v.z]
    ext <;> simp [hx, hy, hz, zero_def]
  · intro h
    subst h
    simp [zero_def]

theorem mag_pos (v : Vec3) (hv : v ≠ 0) : 0 < mag v := by
  have h0 : magSq v ≠ 0 := fun h => hv ((magSq_eq_zero_iff v).mp h)
  have := magSq_nonneg v
  exact Real.sqrt_pos.mpr (lt_of_le_of_ne this (Ne.symm h0))

theorem mag_smul (a : ℝ) (v : Vec3) : mag (a • v) = |a| * mag v := by
  unfold mag magSq
  rw [smul_def]
  have h1 : (a * v.x) ^ 2 + (a * v.y) ^ 2 + (a * v.z) ^ 2 =
      a ^ 2 * (v.x ^ 2 + v.y ^ 2 + v.z ^ 2) := by ring
  rw [h1, Real.sqrt_mul (sq_nonneg a), Real.sqrt_sq_eq_abs]

theorem mag_single (a : ℝ) (ha : 0 ≤ a) : mag ⟨a, 0, 0⟩ = a := by
  unfold mag magSq
  simp [Real.sqrt_sq ha]

end Vec3

/-- Celestial-body record, embedding `CelestialBody.__init__`
(`object_klasses.py`).  The numeric fields are the parsed decimal values
(`ℚ`); `r` is the (possibly scaled) display radius, `mother` the optional
parent record, `mother_radius` the stored parent-offset component. -/
inductive CelestialBody : Type where
  | mk (name : String) (r : ℚ) (colour : String) (mass : ℚ) (orbit_r : ℚ)
      (v : ℚ) (mother : Option CelestialBody) (mother_radius : ℚ) : CelestialBody

namespace CelestialBody

def name : CelestialBody → String
  | .mk nm _ _ _ _ _ _ _ => nm

def r : CelestialBody → ℚ
  | .mk _ rad _ _ _ _ _ _ => rad

def colour : CelestialBody → String
  | .mk _ _ c _ _ _ _ _ => c

def mass : CelestialBody → ℚ
  | .mk _ _ _ m _ _ _ _ => m

def orbit_r : CelestialBody → ℚ
  | .mk _ _ _ _ o _ _ _ => o

def v : CelestialBody → ℚ
  | .mk _ _ _ _ _ vel _ _ => vel

def mother : CelestialBody → Option CelestialBody
  | .mk _ _ _ _ _ _ mo _ => mo

def mother_radius : CelestialBody → ℚ
  | .mk _ _ _ _ _ _ _ mr => mr

end CelestialBody

/-- Display-radius remapping of `CelestialBody.__init__` when `scaling` is
enabled: the `if 0 < radius < 1000 ... elif ... else` bucket chain. -/
def scaledRadius (radius : ℚ) : ℚ :=
  if 0 < radius ∧ radius < 1000 then radius * 100000000
  else if radius < 10000 then radius * 1000000
  else if radius < 10000000 then radius * 1000
  else if radius < 100000000 then radius * 250
  else radius * 50

/-- Bucket index selected by the `scaledRadius` condition chain (which of
the five branches fires). -/
def radiusBucket (radius : ℚ) : ℕ :=
  if 0 < radius ∧ radius < 1000 then 0
  else if radius < 10000 then 1
  else if radius < 10000000 then 2
  else if radius < 100000000 then 3
  else 4

/-- `CelestialBody.__init__`: stores the (possibly scaled) radius, and when
scaling is on and a mother is present biases `orbit_r` outward by
`mother.r * 2`. -/
def CelestialBody.init (name : String) (radius mass : ℚ) (colour : String)
    (v orbit_r : ℚ) (mother : Option CelestialBody) (mother_radius : ℚ)
    (scaling : Bool) : CelestialBody :=
  let rad := if scaling then scaledRadius radius else radius
  let orb := match scaling, mother with
    | true, some mo => orbit_r + mo.r * 2
    | _, _ => orbit_r
  .mk name rad colour mass orb v mother mother_radius

/-! ### Input parsing (`helperfunctions.planets_from_file`) -/

/-- The single hard input-failure kind: an unparsable numeric field
(`float(...)` raising `ValueError`) or a 7-field moon record with no
preceding parentless body (the source crashes on the unbound `r`/`mother`
locals there). -/
inductive InputError : Type where
  | malformedInput : InputError
deriving DecidableEq

/-- Decimal digit value of a character, if it is one. -/
def digit? (c : Char) : Option ℕ :=
  if 48 ≤ c.toNat ∧ c.toNat ≤ 57 then some (c.toNat - 48) else none

/-- Value of a digit run, most significant first, onto an accumulator. -/
def digitsVal? (acc : ℕ) : List Char → Option ℕ
  | [] => some acc
  | c :: rest =>
    match digit? c with
    | some d => digitsVal? (acc * 10 + d) rest
    | none => none

/-- A non-empty digit run as a natural number. -/
def natOfDigits? : List Char → Option ℕ
  | [] => none
  | cs => digitsVal? 0 cs

/-- Split a character run at the first dot. -/
def splitDot : List Char → List Char × Option (List Char)
  | [] => ([], none)
  | c :: rest =>
    if c = '.' then ([], some rest)
    else
      let p := splitDot rest
      (c :: p.1, p.2)

/-- `float()` on an unsigned plain decimal literal: digits, optionally
followed by a dot and digits. -/
def floatOfChars (cs : List Char) : Option ℚ :=
  match splitDot cs with
  | (intPart, none) => (natOfDigits? intPart).map (fun n => (n : ℚ))
  | (intPart, some fracPart) =>
    match natOfDigits? intPart, natOfDigits? fracPart with
    | some n, some f => some ((n : ℚ) + (f : ℚ) / (10 : ℚ) ^ fracPart.length)
    | _, _ => none

/-- Python `float()` restricted to plain (optionally negated) decimal
literals, the only numeric forms the input schema uses. -/
def str2float (s : String) : Option ℚ :=
  match s.data with
  | '-' :: rest => (floatOfChars rest).map (fun q => -q)
  | _ => floatOfChars s.data

/-- The backward scan of the 7-field branch of `planets_from_file`:
`for celestial_body in reversed(solar_system_list): if celestial_body.mother
is None: ... break` — the last body of the list whose `mother` is unset. -/
def findMother : List CelestialBody → Option CelestialBody
  | [] => none
  | c :: rest =>
    match findMother rest with
    | some m => some m
    | none => if c.mother.isNone then some c else none

/-- Record dispatch of `planets_from_file`: one already-tokenised field list
per non-comment line (comment stripping and comma splitting are the
excluded I/O glue), dispatching on the field count: 4 = star, 6 = planet,
7 = moon, anything else skipped.  `acc` is `solar_system_list` built so
far.  Fallible numeric conversion and the crash on a moon record with no
parentless predecessor surface as `InputError.malformedInput`. -/
def planetsAux (scaling : Bool) (acc : List CelestialBody) :
    List (List String) → Except InputError (List CelestialBody)
  | [] => .ok acc
  | info :: rest =>
    match info with
    | [nm, rad, ms, col] =>
      match str2float rad, str2float ms with
      | some rv, some mv =>
        planetsAux scaling (acc ++ [CelestialBody.init nm rv mv col 0 0 none 0 scaling]) rest
      | _, _ => .error .malformedInput
    | [nm, orb, rad, ms, vel, col] =>
      match str2float orb, str2float rad, str2float ms, str2float vel with
      | some ov, some rv, some mv, some vv =>
        planetsAux scaling (acc ++ [CelestialBody.init nm rv mv col vv ov none 0 scaling]) rest
      | _, _, _, _ => .error .malformedInput
    | [_, nm, orb, rad, ms, vel, col] =>
      match str2float orb, str2float rad, str2float ms, str2float vel with
      | some ov, some rv, some mv, some vv =>
        match findMother acc with
        | some mo =>
          planetsAux scaling
            (acc ++ [CelestialBody.init nm rv mv col vv ov (some mo) mo.orbit_r scaling]) rest
        | none => .error .malformedInput
      | _, _, _, _ => .error .malformedInput
    | _ => planetsAux scaling acc rest

/-- `planets_from_file`: builds the celestial-body list from the tokenised
input lines. -/
def planets_from_file (lines : List (List String)) (scaling : Bool) :
    Except InputError (List CelestialBody) :=
  planetsAux scaling [] lines

/-! ### Simulation state (`StarSystem.__init__`) -/

/-- Runtime state of one rendered body (the `vpython.sphere` carrying
`pos`, `p`, the random phase counter `n`, the source record
`celestial_body`, and the resolved parent `mother` as an index into the
body list). -/
structure SimBody where
  pos : Vec3
  p : Vec3
  n : ℕ
  cb : CelestialBody
  mother : Option ℕ

/-- State of a `StarSystem`: the ordered body list (star first), the
configured gravitational constant and the star's mass. -/
structure SystemState where
  bodies : List SimBody
  grav_constant : ℝ
  star_mass : ℝ

/-- The default gravitational constant `- 6.6742 * 10 ** (-11)`. -/
noncomputable def default_grav : ℝ := -(6.6742 * (10 : ℝ) ^ (-11 : ℤ))

/-- The fixed colour palette of `COLOUR_SWITCH`. -/
def colourPalette : List String := ["yellow", "blue", "red", "white", "orange", "gray"]

/-- The backward scan of `StarSystem.__init__` over the spheres built so
far (`for celestial_body_sphere in reversed(bodies): if
celestial_body_sphere.mother is None: ...`), returning the index of the
last sphere without a mother. -/
def lastParentlessIdx : List SimBody → Option ℕ
  | [] => none
  | b :: rest =>
    match lastParentlessIdx rest with
    | some j => some (j + 1)
    | none => if b.mother.isNone then some 0 else none

/-- Body-construction loop of `StarSystem.__init__`: each record becomes a
sphere with `pos = (orbit_r + mother_radius, 0, 0)` and
`p = mass * (0, v, 0)`; a record with a mother re-resolves its parent by
the backward scan over the spheres built so far (failure — the source's
unset `obj.mother` attribute — aborts construction), and draws its phase
counter `n` from the random source `rand`; an unknown colour key aborts
(`COLOUR_SWITCH[...]` raising `KeyError`). -/
def initAux (rand : ℕ → ℕ) (i : ℕ) (done : List SimBody) :
    List CelestialBody → Option (List SimBody)
  | [] => some done
  | cb :: rest =>
    if cb.colour ∈ colourPalette then
      let pos : Vec3 := ⟨((cb.orbit_r + cb.mother_radius : ℚ) : ℝ), 0, 0⟩
      let p : Vec3 := ((cb.mass : ℚ) : ℝ) • (⟨0, ((cb.v : ℚ) : ℝ), 0⟩ : Vec3)
      match cb.mother with
      | some _ =>
        match lastParentlessIdx done with
        | some j => initAux rand (i + 1) (done ++ [⟨pos, p, rand i, cb, some j⟩]) rest
        | none => none
      | none => initAux rand (i + 1) (done ++ [⟨pos, p, 0, cb, none⟩]) rest
    else none

/-- `StarSystem.__init__`: builds the sphere list and records the
gravitational constant and the first record's mass as `star_mass`
(`celestial_bodies[0]` — an empty input aborts). -/
def systemInit (cbs : List CelestialBody) (rand : ℕ → ℕ) (G : ℝ) :
    Option SystemState :=
  match initAux rand 0 [] cbs, cbs.head? with
  | some bodies, some c0 => some ⟨bodies, G, ((c0.mass : ℚ) : ℝ)⟩
  | _, _ => none

/-! ### The integrator (`StarSystem.move`) -/

/-- The orbit angle used by the satellite branch at phase counter `k`:
`n = body.n - body.n % 100` then `n * pi / 50000`. -/
noncomputable def moonTheta (k : ℕ) : ℝ := ((k - k % 100 : ℕ) : ℝ) * Real.pi / 50000

/-- The gravitational branch of `StarSystem.move`:
`F = grav_constant * star_mass * CB.mass * norm(body.pos) / mag(body.pos) ** 2`;
`body.p += F * dt`; `body.pos += body.p * dt / CB.mass`. -/
noncomputable def eulerStep (G M dt : ℝ) (b : SimBody) : SimBody :=
  let F := ((G * M * ((b.cb.mass : ℚ) : ℝ)) • Vec3.vnorm b.pos) / (Vec3.mag b.pos) ^ 2
  let p2 := b.p + dt • F
  { b with p := p2, pos := b.pos + (dt / ((b.cb.mass : ℚ) : ℝ)) • p2 }

/-- One loop iteration of `StarSystem.move` on body `b`, with `cur` the
current body list (the satellite branch reads its mother's position, which
earlier iterations may already have updated in place). -/
noncomputable def moveStep (G M dt : ℝ) (ms : Bool) (cur : List SimBody) (b : SimBody) :
    SimBody :=
  if b.cb.mother.isSome && ms then
    let mpos := ((b.mother.bind fun j => cur.get? j).map SimBody.pos).getD 0
    { b with
        pos := mpos + ⟨((b.cb.orbit_r : ℚ) : ℝ) * Real.cos (moonTheta b.n),
                       ((b.cb.orbit_r : ℚ) : ℝ) * Real.sin (moonTheta b.n), 0⟩,
        n := b.n + 1 }
  else eulerStep G M dt b

/-- The body loop of `StarSystem.move` over `self.celestial_bodies[1::]`:
`done` holds the star and the bodies already updated this tick, `todo` the
rest; each body is updated in place, so later bodies see earlier updates. -/
noncomputable def moveAux (G M dt : ℝ) (ms : Bool) (done : List SimBody) :
    List SimBody → List SimBody
  | [] => done
  | b :: rest => moveAux G M dt ms (done ++ [moveStep G M dt ms (done ++ b :: rest) b]) rest

/-- The full body update of one `StarSystem.move` call: the star (index 0)
is skipped, every later body is updated in order. -/
noncomputable def moveBodies (G M dt : ℝ) (ms : Bool) : List SimBody → List SimBody
  | [] => []
  | star :: rest => moveAux G M dt ms [star] rest

/-- `StarSystem.move`: updates every body but the star (index 0). -/
noncomputable def SystemState.move (s : SystemState) (dt : ℝ) (ms : Bool) : SystemState :=
  { s with bodies := moveBodies s.grav_constant s.star_mass dt ms s.bodies }

/-! ### The simulation loop (`StarSystem.start`) -/

/-- The `while t < n` loop of `StarSystem.start`, also counting the number
of `move` calls performed (the `rate(1000)` throttle and the initial sleep
are real-time effects with no state). -/
noncomputable def startAux (dt : ℝ) (ms : Bool) (n t : ℕ) (s : SystemState) :
    SystemState × ℕ :=
  if t < n then
    let res := startAux dt ms n (t + 1) (s.move dt ms)
    (res.1, res.2 + 1)
  else (s, 0)
termination_by n - t
decreasing_by simp_wf; omega

/-- `StarSystem.start(n, dt, move_satellites)`: runs the loop from `t = 0`
and returns the final state together with the number of integrator calls. -/
noncomputable def SystemState.start (s : SystemState) (n : ℕ) (dt : ℝ) (ms : Bool) :
    SystemState × ℕ :=
  startAux dt ms n 0 s

/-! ### Structural lemmas about the body-update loop -/

theorem moveStep_cb (G M dt : ℝ) (ms : Bool) (cur : List SimBody) (b : SimBody) :
    (moveStep G M dt ms cur b).cb = b.cb := by
  rw [moveStep]
  split
  · rfl
  · rfl

theorem moveStep_mother (G M dt : ℝ) (ms : Bool) (cur : List SimBody) (b : SimBody) :
    (moveStep G M dt ms cur b).mother = b.mother := by
  rw [moveStep]
  split
  · rfl
  · rfl

theorem moveStep_moon_p (G M dt : ℝ) (ms : Bool) (cur : List SimBody) (b : SimBody)
    (h : (b.cb.mother.isSome && ms) = true) : (moveStep G M dt ms cur b).p = b.p := by
  rw [moveStep, if_pos h]

theorem moveAux_get_lt (G M dt : ℝ) (ms : Bool) (todo : List SimBody) :
    ∀ (done : List SimBody) (i : ℕ), i < done.length →
      (moveAux G M dt ms done todo)[i]? = done[i]? := by
  induction todo with
  | nil => intro done i h; rfl
  | cons b rest ih =>
    intro done i h
    rw [moveAux]
    rw [ih _ i (by simp; omega)]
    exact List.getElem?_append_left h

theorem moveAux_get_step (G M dt : ℝ) (ms : Bool) (todo : List SimBody) :
    ∀ (done : List SimBody) (i : ℕ) (b : SimBody), todo[i]? = some b →
      ∃ cur, (moveAux G M dt ms done todo)[done.length + i]? =
        some (moveStep G M dt ms cur b) := by
  induction todo with
  | nil => intro done i b h; simp at h
  | cons b0 rest ih =>
    intro done i b h
    cases i with
    | zero =>
      have hb : b0 = b := by simpa using h
      subst hb
      rw [moveAux]
      refine ⟨done ++ b0 :: rest, ?_⟩
      rw [Nat.add_zero,
        moveAux_get_lt G M dt ms rest _ done.length (by simp)]
      exact List.getElem?_concat_length done _
    | succ i' =>
      rw [moveAux]
      have h' : rest[i']? = some b := by simpa using h
      have hh := ih (done ++ [moveStep G M dt ms (done ++ b0 :: rest) b0]) i' b h'
      have hidx : done.length + (i' + 1) =
          (done ++ [moveStep G M dt ms (done ++ b0 :: rest) b0]).length + i' := by
        simp
        omega
      rw [hidx]
      exact hh

theorem moveAux_get_moon (G M dt : ℝ) (todo : List SimBody) :
    ∀ (done : List SimBody) (i j : ℕ) (b : SimBody), todo[i]? = some b →
      b.cb.mother.isSome = true → b.mother = some j → j < done.length + i →
      ∃ mb, (moveAux G M dt true done todo)[j]? = some mb ∧
        (moveAux G M dt true done todo)[done.length + i]? =
          some { b with
            pos := mb.pos + ⟨((b.cb.orbit_r : ℚ) : ℝ) * Real.cos (moonTheta b.n),
                             ((b.cb.orbit_r : ℚ) : ℝ) * Real.sin (moonTheta b.n), 0⟩,
            n := b.n + 1 } := by
  induction todo with
  | nil => intro done i j b h; simp at h
  | cons b0 rest ih =>
    intro done i j b h hmoth hj hjlt
    cases i with
    | zero =>
      have hb : b0 = b := by simpa using h
      subst hb
      rw [Nat.add_zero] at hjlt
      have hmb : done[j]? = some done[j] := List.getElem?_eq_getElem hjlt
      rw [moveAux]
      have hcond : (b0.cb.mother.isSome && true) = true := by simp [hmoth]
      have hstep : moveStep G M dt true (done ++ b0 :: rest) b0 =
          { b0 with
            pos := done[j].pos + ⟨((b0.cb.orbit_r : ℚ) : ℝ) * Real.cos (moonTheta b0.n),
                                  ((b0.cb.orbit_r : ℚ) : ℝ) * Real.sin (moonTheta b0.n), 0⟩,
            n := b0.n + 1 } := by
        rw [moveStep, if_pos hcond, hj]
        have hget : (done ++ b0 :: rest)[j]? = some done[j] := by
          rw [List.getElem?_append_left hjlt, hmb]
        simp [hget]
      refine ⟨done[j], ?_, ?_⟩
      · rw [moveAux_get_lt G M dt true rest _ j (by simp; omega)]
        rw [List.getElem?_append_left hjlt, hmb]
      · rw [Nat.add_zero,
          moveAux_get_lt G M dt true rest _ done.length (by simp), hstep]
        exact List.getElem?_concat_length done _
    | succ i' =>
      rw [moveAux]
      have h' : rest[i']? = some b := by simpa using h
      have hh := ih (done ++ [moveStep G M dt true (done ++ b0 :: rest) b0]) i' j b h' hmoth hj
        (by simp; omega)
      have hidx : done.length + (i' + 1) =
          (done ++ [moveStep G M dt true (done ++ b0 :: rest) b0]).length + i' := by
        simp
        omega
      rw [hidx]
      exact hh

theorem move_grav_constant (s : SystemState) (dt : ℝ) (ms : Bool) :
    (s.move dt ms).grav_constant = s.grav_constant := rfl

theorem move_star_mass (s : SystemState) (dt : ℝ) (ms : Bool) :
    (s.move dt ms).star_mass = s.star_mass := rfl

theorem move_get_zero (s : SystemState) (dt : ℝ) (ms : Bool) :
    (s.move dt ms).bodies[0]? = s.bodies[0]? := by
  show (moveBodies s.grav_constant s.star_mass dt ms s.bodies)[0]? = s.bodies[0]?
  cases hsb : s.bodies with
  | nil => rfl
  | cons star rest =>
    rw [moveBodies]
    rw [moveAux_get_lt _ _ _ _ _ [star] 0 (by simp)]
    simp

theorem move_get_frame (s : SystemState) (dt : ℝ) (ms : Bool) (i : ℕ) (b : SimBody)
    (hb : s.bodies[i + 1]? = some b) :
    ∃ cur, (s.move dt ms).bodies[i + 1]? =
      some (moveStep s.grav_constant s.star_mass dt ms cur b) := by
  show ∃ cur, (moveBodies s.grav_constant s.star_mass dt ms s.bodies)[i + 1]? = _
  cases hsb : s.bodies with
  | nil => rw [hsb] at hb; simp at hb
  | cons star rest =>
    rw [hsb] at hb
    have hr : rest[i]? = some b := by simpa using hb
    rw [moveBodies]
    have hh := moveAux_get_step s.grav_constant s.star_mass dt ms rest [star] i b hr
    simpa [Nat.add_comm] using hh

theorem move_get_euler (s : SystemState) (dt : ℝ) (ms : Bool) (i : ℕ) (b : SimBody)
    (hb : s.bodies[i + 1]? = some b) (hc : (b.cb.mother.isSome && ms) = false) :
    (s.move dt ms).bodies[i + 1]? =
      some (eulerStep s.grav_constant s.star_mass dt b) := by
  obtain ⟨cur, hcur⟩ := move_get_frame s dt ms i b hb
  rw [hcur, moveStep, if_neg (by simp [hc])]

theorem move_get_moon (s : SystemState) (dt : ℝ) (i j : ℕ) (b : SimBody)
    (hb : s.bodies[i + 1]? = some b) (hmoth : b.cb.mother.isSome = true)
    (hj : b.mother = some j) (hji : j < i + 1) :
    ∃ mb, (s.move dt true).bodies[j]? = some mb ∧
      (s.move dt true).bodies[i + 1]? =
        some { b with
          pos := mb.pos + ⟨((b.cb.orbit_r : ℚ) : ℝ) * Real.cos (moonTheta b.n),
                           ((b.cb.orbit_r : ℚ) : ℝ) * Real.sin (moonTheta b.n), 0⟩,
          n := b.n + 1 } := by
  show ∃ mb, (moveBodies s.grav_constant s.star_mass dt true s.bodies)[j]? = some mb ∧
    (moveBodies s.grav_constant s.star_mass dt true s.bodies)[i + 1]? = _
  cases hsb : s.bodies with
  | nil => rw [hsb] at hb; simp at hb
  | cons star rest =>
    rw [hsb] at hb
    have hr : rest[i]? = some b := by simpa using hb
    rw [moveBodies]
    have hh := moveAux_get_moon s.grav_constant s.star_mass dt rest [star] i j b hr hmoth hj
      (by simp; omega)
    simpa [Nat.add_comm] using hh

/-! ### Invariants established by `StarSystem.__init__` -/

/-- Every sphere built by the construction loop starts at
`pos = (orbit_r + mother_radius, 0, 0)` with momentum
`p = mass * (0, v, 0)`. -/
theorem initAux_inv (rand : ℕ → ℕ) (todo : List CelestialBody) :
    ∀ (i : ℕ) (done res : List SimBody), initAux rand i done todo = some res →
      (∀ b ∈ done, b.pos = ⟨((b.cb.orbit_r + b.cb.mother_radius : ℚ) : ℝ), 0, 0⟩ ∧
        b.p = ((b.cb.mass : ℚ) : ℝ) • (⟨0, ((b.cb.v : ℚ) : ℝ), 0⟩ : Vec3)) →
      ∀ b ∈ res, b.pos = ⟨((b.cb.orbit_r + b.cb.mother_radius : ℚ) : ℝ), 0, 0⟩ ∧
        b.p = ((b.cb.mass : ℚ) : ℝ) • (⟨0, ((b.cb.v : ℚ) : ℝ), 0⟩ : Vec3) := by
  induction todo with
  | nil =>
    intro i done res h hdone
    rw [initAux] at h
    cases h
    exact hdone
  | cons cb rest ih =>
    intro i done res h hdone
    rw [initAux] at h
    by_cases hcol : cb.colour ∈ colourPalette
    · rw [if_pos hcol] at h
      cases hmo : cb.mother with
      | some mo =>
        rw [hmo] at h
        cases hlp : lastParentlessIdx done with
        | some j =>
          rw [hlp] at h
          refine ih (i + 1) _ res h ?_
          intro b hbmem
          rcases List.mem_append.mp hbmem with hold | hnew
          · exact hdone b hold
          · have hb : b = ⟨⟨((cb.orbit_r + cb.mother_radius : ℚ) : ℝ), 0, 0⟩,
                ((cb.mass : ℚ) : ℝ) • (⟨0, ((cb.v : ℚ) : ℝ), 0⟩ : Vec3), rand i, cb, some j⟩ := by
              simpa using hnew
            subst hb
            exact ⟨rfl, rfl⟩
        | none => rw [hlp] at h; cases h
      | none =>
        rw [hmo] at h
        refine ih (i + 1) _ res h ?_
        intro b hbmem
        rcases List.mem_append.mp hbmem with hold | hnew
        · exact hdone b hold
        · have hb : b = ⟨⟨((cb.orbit_r + cb.mother_radius : ℚ) : ℝ), 0, 0⟩,
              ((cb.mass : ℚ) : ℝ) • (⟨0, ((cb.v : ℚ) : ℝ), 0⟩ : Vec3), 0, cb, none⟩ := by
            simpa using hnew
          subst hb
          exact ⟨rfl, rfl⟩
    · rw [if_neg hcol] at h
      cases h

/-- `systemInit` version of `initAux_inv`, per body index. -/
theorem systemInit_body_init (cbs : List CelestialBody) (rand : ℕ → ℕ) (G : ℝ)
    (sys : SystemState) (hinit : systemInit cbs rand G = some sys) (i : ℕ) (b : SimBody)
    (hb : sys.bodies[i]? = some b) :
    b.pos = ⟨((b.cb.orbit_r + b.cb.mother_radius : ℚ) : ℝ), 0, 0⟩ ∧
      b.p = ((b.cb.mass : ℚ) : ℝ) • (⟨0, ((b.cb.v : ℚ) : ℝ), 0⟩ : Vec3) := by
  rw [systemInit] at hinit
  cases hia : initAux rand 0 [] cbs with
  | none => rw [hia] at hinit; cases hinit
  | some bodies =>
    rw [hia] at hinit
    cases hhd : cbs.head? with
    | none => rw [hhd] at hinit; cases hinit
    | some c0 =>
      rw [hhd] at hinit
      cases hinit
      have hmem : b ∈ bodies := by
        have := List.getElem?_eq_some_iff.mp hb
        obtain ⟨hlt, hget⟩ := this
        exact hget ▸ List.getElem_mem hlt
      exact initAux_inv rand cbs 0 [] bodies hia (by intro b hb2; simp at hb2) b hmem

/-! ### The simulation loop performs exactly `n` integrator calls -/

theorem startAux_eq (dt : ℝ) (ms : Bool) (n : ℕ) :
    ∀ (k t : ℕ) (s : SystemState), n - t = k →
      startAux dt ms n t s = ((fun st => st.move dt ms)^[k] s, k) := by
  intro k
  induction k with
  | zero =>
    intro t s hk
    rw [startAux, if_neg (by omega)]
    rfl
  | succ k' ih =>
    intro t s hk
    rw [startAux, if_pos (by omega)]
    rw [ih (t + 1) (s.move dt ms) (by omega)]
    simp [Function.iterate_succ_apply]

/-! ### Monotonicity of the satellite phase angle -/

theorem moonTheta_mono (a c : ℕ) (h : a ≤ c) : moonTheta a ≤ moonTheta c := by
  unfold moonTheta
  have h1 : a - a % 100 = 100 * (a / 100) := by omega
  have h2 : c - c % 100 = 100 * (c / 100) := by omega
  have h3 : a / 100 ≤ c / 100 := Nat.div_le_div_right h
  have h4 : ((a - a % 100 : ℕ) : ℝ) ≤ ((c - c % 100 : ℕ) : ℝ) := by
    exact_mod_cast by omega
  have hpi : (0 : ℝ) ≤ Real.pi := Real.pi_nonneg
  have h5 : ((a - a % 100 : ℕ) : ℝ) * Real.pi ≤ ((c - c % 100 : ℕ) : ℝ) * Real.pi :=
    mul_le_mul_of_nonneg_right h4 hpi
  exact div_le_div_of_nonneg_right h5 (by norm_num) |>.trans_eq rfl

/-! ### Characterisation of the parent-resolution scan -/

/-- The backward scan picks exactly the last parentless body of the list. -/
theorem findMother_eq_getLast (l : List CelestialBody) :
    findMother l = (l.filter fun cb => cb.mother.isNone).getLast? := by
  induction l with
  | nil => rfl
  | cons c rest ih =>
    rw [findMother, List.filter_cons]
    cases hfm : findMother rest with
    | some m =>
      rw [hfm] at ih
      cases hfr : rest.filter (fun cb => cb.mother.isNone) with
      | nil => rw [hfr] at ih; simp at ih
      | cons x xs =>
        rw [hfr] at ih
        by_cases hc : c.mother.isNone
        · simp only [hc, if_true]
          rw [List.getLast?_cons_cons]
          exact ih
        · simp only [hc, if_false]
          exact ih
    | none =>
      rw [hfm] at ih
      cases hfr : rest.filter (fun cb => cb.mother.isNone) with
      | cons x xs =>
        rw [hfr] at ih
        have : (x :: xs).getLast?.isSome := by simp [List.getLast?_isSome]
        rw [← ih] at this
        simp at this
      | nil =>
        by_cases hc : c.mother.isNone <;> simp [hc]

/-! ### Geometry of the two update branches -/

theorem Vec3.mag_circle (r θ : ℝ) (hr : 0 ≤ r) :
    Vec3.mag ⟨r * Real.cos θ, r * Real.sin θ, 0⟩ = r := by
  unfold Vec3.mag Vec3.magSq
  have h1 : (r * Real.cos θ) ^ 2 + (r * Real.sin θ) ^ 2 + (0 : ℝ) ^ 2 =
      r ^ 2 * (Real.sin θ ^ 2 + Real.cos θ ^ 2) := by ring
  rw [h1, Real.sin_sq_add_cos_sq, mul_one, Real.sqrt_sq hr]

/-- With zero momentum, one gravitational Euler step scales the position by
`1 + G * M * dt ^ 2 / mag ^ 3`. -/
theorem eulerStep_pos_of_p_zero (G M dt : ℝ) (b : SimBody) (hp0 : b.p = 0)
    (hm : ((b.cb.mass : ℚ) : ℝ) ≠ 0) (hpos : b.pos ≠ 0) :
    (eulerStep G M dt b).pos =
      (1 + G * M * dt ^ 2 / (Vec3.mag b.pos) ^ 3) • b.pos := by
  have hr : 0 < Vec3.mag b.pos := Vec3.mag_pos b.pos hpos
  have hrne : Vec3.mag b.pos ≠ 0 := ne_of_gt hr
  unfold eulerStep
  rw [hp0]
  ext <;>
    · simp only [Vec3.smul_def, Vec3.add_def, Vec3.div_def, Vec3.zero_def, Vec3.vnorm,
        Vec3.mag]
      have hs : Real.sqrt (Vec3.magSq b.pos) ≠ 0 := hrne
      field_simp [hm, hs]
      ring

theorem default_grav_eq : default_grav = -(66742 / 10 ^ 15 : ℝ) := by
  unfold default_grav
  norm_num

theorem default_grav_neg : default_grav < 0 := by
  rw [default_grav_eq]
  norm_num

/-! ### Concrete fixtures -/

def wStarCB : CelestialBody := .mk "Sun" 1 "yellow" 1 0 0 none 0

def wPlanetCB : CelestialBody := .mk "P" 1 "blue" 1 1 0 none 0

def wMoonCB : CelestialBody := .mk "Luna" 1 "gray" 1 1 0 (some wStarCB) 0

def wStarSB : SimBody := ⟨⟨0, 0, 0⟩, ⟨0, 0, 0⟩, 0, wStarCB, none⟩

def wPlanetSB : SimBody := ⟨⟨1, 0, 0⟩, ⟨0, 0, 0⟩, 0, wPlanetCB, none⟩

def wMoonSB : SimBody := ⟨⟨1, 0, 0⟩, ⟨0, 0, 0⟩, 0, wMoonCB, some 0⟩

noncomputable def wSysP : SystemState := ⟨[wStarSB, wPlanetSB], -(1 / 2 : ℝ), 1⟩

noncomputable def wSysM : SystemState := ⟨[wStarSB, wMoonSB], -(1 / 2 : ℝ), 1⟩

/-! ### C1 -/

/-- C1: one `StarSystem.move` call updates every parentless non-star body
with nonzero position by exactly the semi-implicit Euler step of the
source: `F = G * M_star * mass * norm(pos) / mag(pos) ** 2` (one force
evaluation), then `p += F * dt`, then `pos += p * dt / mass`. -/
theorem planet_euler_step (s : SystemState) (dt : ℝ) (ms : Bool) (i : ℕ) (b : SimBody)
    (hb : s.bodies[i + 1]? = some b) (hpl : b.cb.mother = none) (hpos : b.pos ≠ 0) :
    (s.move dt ms).bodies[i + 1]? =
      some { b with
        p := b.p + dt • (((s.grav_constant * s.star_mass * ((b.cb.mass : ℚ) : ℝ)) •
          Vec3.vnorm b.pos) / (Vec3.mag b.pos) ^ 2),
        pos := b.pos + (dt / ((b.cb.mass : ℚ) : ℝ)) •
          (b.p + dt • (((s.grav_constant * s.star_mass * ((b.cb.mass : ℚ) : ℝ)) •
            Vec3.vnorm b.pos) / (Vec3.mag b.pos) ^ 2)) } := by
  have hc : (b.cb.mother.isSome && ms) = false := by simp [hpl]
  rw [move_get_euler s dt ms i b hb hc]
  rfl

theorem planet_euler_step_witness :
    (wSysP.bodies[0 + 1]? = some wPlanetSB ∧ wPlanetSB.cb.mother = none ∧
      wPlanetSB.pos ≠ 0) ∧
    (wSysP.move 1 false).bodies[0 + 1]? =
      some { wPlanetSB with
        p := wPlanetSB.p + (1 : ℝ) •
          (((wSysP.grav_constant * wSysP.star_mass * ((wPlanetSB.cb.mass : ℚ) : ℝ)) •
            Vec3.vnorm wPlanetSB.pos) / (Vec3.mag wPlanetSB.pos) ^ 2),
        pos := wPlanetSB.pos + ((1 : ℝ) / ((wPlanetSB.cb.mass : ℚ) : ℝ)) •
          (wPlanetSB.p + (1 : ℝ) •
            (((wSysP.grav_constant * wSysP.star_mass * ((wPlanetSB.cb.mass : ℚ) : ℝ)) •
              Vec3.vnorm wPlanetSB.pos) / (Vec3.mag wPlanetSB.pos) ^ 2)) } := by
  have hb : wSysP.bodies[0 + 1]? = some wPlanetSB := by simp [wSysP]
  have hpl : wPlanetSB.cb.mother = none := rfl
  have hpos : wPlanetSB.pos ≠ 0 := by
    show (⟨1, 0, 0⟩ : Vec3) ≠ 0
    rw [Vec3.zero_def]
    intro h
    have hx := congrArg Vec3.x h
    norm_num at hx
  exact ⟨⟨hb, hpl, hpos⟩, planet_euler_step wSysP 1 false 0 wPlanetSB hb hpl hpos⟩

/-! ### C2 -/

noncomputable def wSysG : SystemState := ⟨[wStarSB, wPlanetSB], default_grav, 1⟩

noncomputable def wSysHeavy : SystemState :=
  ⟨[wStarSB, wPlanetSB], default_grav, 1000000000000⟩

/-- C2 (amended): with zero initial momentum and the default gravitational
constant, one `move` step scales the position by
`1 + G * M_star * dt ^ 2 / mag ^ 3`; the distance to the origin strictly
decreases provided the step does not overshoot,
`-G * M_star * dt ^ 2 < 2 * mag ^ 3` (and `dt ≠ 0`). -/
theorem planet_attraction_no_overshoot (s : SystemState) (dt : ℝ) (ms : Bool) (i : ℕ)
    (b : SimBody)
    (hb : s.bodies[i + 1]? = some b) (hpl : b.cb.mother = none)
    (hG : s.grav_constant = default_grav) (hM : 0 < s.star_mass)
    (hmass : 0 < ((b.cb.mass : ℚ) : ℝ)) (hp0 : b.p = 0) (hpos : b.pos ≠ 0) (hdt : dt ≠ 0)
    (hover : -default_grav * s.star_mass * dt ^ 2 < 2 * (Vec3.mag b.pos) ^ 3) :
    (s.move dt ms).bodies[i + 1]? = some (eulerStep s.grav_constant s.star_mass dt b) ∧
      Vec3.mag (eulerStep s.grav_constant s.star_mass dt b).pos < Vec3.mag b.pos := by
  have hc : (b.cb.mother.isSome && ms) = false := by simp [hpl]
  refine ⟨move_get_euler s dt ms i b hb hc, ?_⟩
  have hmne : ((b.cb.mass : ℚ) : ℝ) ≠ 0 := ne_of_gt hmass
  rw [eulerStep_pos_of_p_zero s.grav_constant s.star_mass dt b hp0 hmne hpos,
    Vec3.mag_smul]
  set r := Vec3.mag b.pos with hrdef
  have hr : 0 < r := Vec3.mag_pos b.pos hpos
  have hr3 : 0 < r ^ 3 := by positivity
  set c := s.grav_constant * s.star_mass * dt ^ 2 / r ^ 3 with hcdef
  have hclt : c < 0 := by
    rw [hcdef, hG]
    apply div_neg_of_neg_of_pos _ hr3
    have hdt2 : 0 < dt ^ 2 := by positivity
    have hgneg := default_grav_neg
    have h1 : default_grav * (s.star_mass * dt ^ 2) < 0 :=
      mul_neg_of_neg_of_pos hgneg (mul_pos hM hdt2)
    nlinarith [h1]
  have hcgt : -2 < c := by
    rw [hcdef, hG, lt_div_iff hr3]
    nlinarith
  have habs : |1 + c| < 1 := abs_lt.mpr ⟨by linarith, by linarith⟩
  calc |1 + c| * r < 1 * r := mul_lt_mul_of_pos_right habs hr
  _ = r := one_mul r

theorem planet_attraction_no_overshoot_witness :
    (wSysG.bodies[0 + 1]? = some wPlanetSB ∧ wPlanetSB.cb.mother = none ∧
      wSysG.grav_constant = default_grav ∧ (0 : ℝ) < wSysG.star_mass ∧
      (0 : ℝ) < ((wPlanetSB.cb.mass : ℚ) : ℝ) ∧ wPlanetSB.p = 0 ∧ wPlanetSB.pos ≠ 0 ∧
      (1 : ℝ) ≠ 0 ∧
      -default_grav * wSysG.star_mass * (1 : ℝ) ^ 2 < 2 * (Vec3.mag wPlanetSB.pos) ^ 3) ∧
    (wSysG.move 1 false).bodies[0 + 1]? =
        some (eulerStep wSysG.grav_constant wSysG.star_mass 1 wPlanetSB) ∧
      Vec3.mag (eulerStep wSysG.grav_constant wSysG.star_mass 1 wPlanetSB).pos <
        Vec3.mag wPlanetSB.pos := by
  have hmag : Vec3.mag wPlanetSB.pos = 1 := by
    show Vec3.mag ⟨1, 0, 0⟩ = 1
    exact Vec3.mag_single 1 (by norm_num)
  have hb : wSysG.bodies[0 + 1]? = some wPlanetSB := by simp [wSysG]
  have hpl : wPlanetSB.cb.mother = none := rfl
  have hpos : wPlanetSB.pos ≠ 0 := by
    show (⟨1, 0, 0⟩ : Vec3) ≠ 0
    rw [Vec3.zero_def]
    intro h
    have hx := congrArg Vec3.x h
    norm_num at hx
  have hover : -default_grav * wSysG.star_mass * (1 : ℝ) ^ 2 <
      2 * (Vec3.mag wPlanetSB.pos) ^ 3 := by
    rw [hmag]
    show -default_grav * 1 * (1 : ℝ) ^ 2 < 2 * 1 ^ 3
    rw [default_grav_eq]
    norm_num
  have hM : (0 : ℝ) < wSysG.star_mass := by norm_num [wSysG]
  have hmass : (0 : ℝ) < ((wPlanetSB.cb.mass : ℚ) : ℝ) := by norm_num [wPlanetSB, wPlanetCB,
    CelestialBody.mass]
  exact ⟨⟨hb, hpl, rfl, hM, hmass, rfl, hpos, by norm_num, hover⟩,
    planet_attraction_no_overshoot wSysG 1 false 0 wPlanetSB hb hpl rfl hM hmass rfl hpos
      (by norm_num) hover⟩

/-- C2 as stated is false: with the default gravitational constant, a star
mass of `10 ^ 12` and `dt = 1`, the planet at distance 1 with zero initial
velocity overshoots the origin and ends up strictly farther away. -/
theorem planet_attraction_cx :
    ((wSysHeavy.move 1 false).bodies[1]?).elim False
      (fun b2 => Vec3.mag wPlanetSB.pos < Vec3.mag b2.pos) := by
  have hb : wSysHeavy.bodies[0 + 1]? = some wPlanetSB := by simp [wSysHeavy]
  have hc : (wPlanetSB.cb.mother.isSome && false) = false := by simp
  have hpos : wPlanetSB.pos ≠ 0 := by
    show (⟨1, 0, 0⟩ : Vec3) ≠ 0
    rw [Vec3.zero_def]
    intro h
    have hx := congrArg Vec3.x h
    norm_num at hx
  have h1 := move_get_euler wSysHeavy 1 false 0 wPlanetSB hb hc
  rw [show (1 : ℕ) = 0 + 1 from rfl, h1]
  simp only [Option.elim]
  have hmne : ((wPlanetSB.cb.mass : ℚ) : ℝ) ≠ 0 := by
    norm_num [wPlanetSB, wPlanetCB, CelestialBody.mass]
  rw [eulerStep_pos_of_p_zero _ _ _ _ rfl hmne hpos, Vec3.mag_smul]
  have hmag : Vec3.mag wPlanetSB.pos = 1 := by
    show Vec3.mag ⟨1, 0, 0⟩ = 1
    exact Vec3.mag_single 1 (by norm_num)
  rw [hmag]
  show (1 : ℝ) < |1 + default_grav * 1000000000000 * 1 ^ 2 / 1 ^ 3| * 1
  rw [default_grav_eq, abs_of_neg (by norm_num)]
  norm_num

/-! ### C3 -/

/-- C3 (amended): with `move_satellites=False` there is no rigid-offset
mode — a moon falls into the gravitational branch and is updated by the
same semi-implicit Euler step as a planet, so its position is not a fixed
offset from its parent and is not idempotent under repeated ticks. -/
theorem moon_euler_when_not_move_satellites (s : SystemState) (dt : ℝ) (i : ℕ)
    (b : SimBody) (hb : s.bodies[i + 1]? = some b)
    (hmoth : b.cb.mother.isSome = true) :
    (s.move dt false).bodies[i + 1]? =
      some { b with
        p := b.p + dt • (((s.grav_constant * s.star_mass * ((b.cb.mass : ℚ) : ℝ)) •
          Vec3.vnorm b.pos) / (Vec3.mag b.pos) ^ 2),
        pos := b.pos + (dt / ((b.cb.mass : ℚ) : ℝ)) •
          (b.p + dt • (((s.grav_constant * s.star_mass * ((b.cb.mass : ℚ) : ℝ)) •
            Vec3.vnorm b.pos) / (Vec3.mag b.pos) ^ 2)) } := by
  have hc : (b.cb.mother.isSome && false) = false := by simp
  rw [move_get_euler s dt false i b hb hc]
  rfl

theorem moon_euler_when_not_move_satellites_witness :
    (wSysM.bodies[0 + 1]? = some wMoonSB ∧ wMoonSB.cb.mother.isSome = true) ∧
    (wSysM.move 1 false).bodies[0 + 1]? =
      some { wMoonSB with
        p := wMoonSB.p + (1 : ℝ) •
          (((wSysM.grav_constant * wSysM.star_mass * ((wMoonSB.cb.mass : ℚ) : ℝ)) •
            Vec3.vnorm wMoonSB.pos) / (Vec3.mag wMoonSB.pos) ^ 2),
        pos := wMoonSB.pos + ((1 : ℝ) / ((wMoonSB.cb.mass : ℚ) : ℝ)) •
          (wMoonSB.p + (1 : ℝ) •
            (((wSysM.grav_constant * wSysM.star_mass * ((wMoonSB.cb.mass : ℚ) : ℝ)) •
              Vec3.vnorm wMoonSB.pos) / (Vec3.mag wMoonSB.pos) ^ 2)) } := by
  have hb : wSysM.bodies[0 + 1]? = some wMoonSB := by simp [wSysM]
  have hmoth : wMoonSB.cb.mother.isSome = true := rfl
  exact ⟨⟨hb, hmoth⟩, moon_euler_when_not_move_satellites wSysM 1 0 wMoonSB hb hmoth⟩

/-- C3 as stated is false: with `move_satellites=False` and a fixed parent
(the star never moves), two consecutive ticks give the moon two different
positions — the moon is being pulled by gravity, not held at a rigid
offset. -/
theorem rigid_offset_cx :
    (((wSysM.move 1 false).move 1 false).bodies[1]?).map SimBody.pos ≠
      ((wSysM.move 1 false).bodies[1]?).map SimBody.pos := by
  have hmag1 : Vec3.mag ⟨1, 0, 0⟩ = 1 := Vec3.mag_single 1 (by norm_num)
  have hmag2 : Vec3.mag ⟨1 / 2, 0, 0⟩ = 1 / 2 := Vec3.mag_single (1 / 2) (by norm_num)
  have hb : wSysM.bodies[0 + 1]? = some wMoonSB := by simp [wSysM]
  have hc : (wMoonSB.cb.mother.isSome && false) = false := by simp
  have h1 := move_get_euler wSysM 1 false 0 wMoonSB hb hc
  have hstep1 : eulerStep wSysM.grav_constant wSysM.star_mass 1 wMoonSB =
      (⟨⟨1 / 2, 0, 0⟩, ⟨-(1 / 2), 0, 0⟩, 0, wMoonCB, some 0⟩ : SimBody) := by
    show eulerStep (-(1 / 2) : ℝ) 1 1 wMoonSB = _
    unfold eulerStep
    simp only [wMoonSB, Vec3.vnorm, Vec3.div_def, Vec3.smul_def, Vec3.add_def]
    rw [hmag1]
    simp only [SimBody.mk.injEq, Vec3.mk.injEq, wMoonCB, CelestialBody.mass]
    norm_num
  rw [hstep1] at h1
  have hc2 : (((⟨⟨1 / 2, 0, 0⟩, ⟨-(1 / 2), 0, 0⟩, 0, wMoonCB, some 0⟩ :
      SimBody)).cb.mother.isSome && false) = false := by simp
  have h2 := move_get_euler (wSysM.move 1 false) 1 false 0 _ h1 hc2
  have hstep2 : eulerStep (wSysM.move 1 false).grav_constant
      (wSysM.move 1 false).star_mass 1
      (⟨⟨1 / 2, 0, 0⟩, ⟨-(1 / 2), 0, 0⟩, 0, wMoonCB, some 0⟩ : SimBody) =
      (⟨⟨-2, 0, 0⟩, ⟨-(5 / 2), 0, 0⟩, 0, wMoonCB, some 0⟩ : SimBody) := by
    show eulerStep (-(1 / 2) : ℝ) 1 1 _ = _
    unfold eulerStep
    simp only [Vec3.vnorm, Vec3.div_def, Vec3.smul_def, Vec3.add_def]
    rw [hmag2]
    simp only [SimBody.mk.injEq, Vec3.mk.injEq, wMoonCB, CelestialBody.mass]
    norm_num
  rw [hstep2] at h2
  rw [Nat.zero_add] at h1 h2
  rw [h1, h2]
  simp only [Option.map_some, ne_eq, Option.some.injEq, Vec3.mk.injEq]
  norm_num

/-! ### C4 -/

/-- C4 (amended): in circular-orbit mode a moon sits at distance exactly
`orbit_r` from its (already updated) parent after every tick, and its
phase counter advances by one; the orbit angle
`moonTheta n = (n - n % 100) * pi / 50000` is monotonically non-decreasing
in the counter, but not strictly increasing from tick to tick (it is
constant while `n` stays within a block of 100). -/
theorem moon_circle_invariants (s : SystemState) (dt : ℝ) (i j : ℕ) (b : SimBody)
    (hb : s.bodies[i + 1]? = some b) (hmoth : b.cb.mother.isSome = true)
    (hj : b.mother = some j) (hji : j < i + 1) (hr : 0 ≤ b.cb.orbit_r) :
    ∃ b' mb, (s.move dt true).bodies[i + 1]? = some b' ∧
      (s.move dt true).bodies[j]? = some mb ∧
      Vec3.mag (b'.pos - mb.pos) = ((b.cb.orbit_r : ℚ) : ℝ) ∧
      b'.n = b.n + 1 ∧
      ∀ a c : ℕ, a ≤ c → moonTheta a ≤ moonTheta c := by
  obtain ⟨mb, hmb, hbi⟩ := move_get_moon s dt i j b hb hmoth hj hji
  refine ⟨_, mb, hbi, hmb, ?_, rfl, moonTheta_mono⟩
  show Vec3.mag ((mb.pos + ⟨((b.cb.orbit_r : ℚ) : ℝ) * Real.cos (moonTheta b.n),
      ((b.cb.orbit_r : ℚ) : ℝ) * Real.sin (moonTheta b.n), 0⟩) - mb.pos) =
    ((b.cb.orbit_r : ℚ) : ℝ)
  rw [Vec3.add_sub_cancel_left]
  exact Vec3.mag_circle _ _ (by exact_mod_cast hr)

theorem moon_circle_invariants_witness :
    (wSysM.bodies[0 + 1]? = some wMoonSB ∧ wMoonSB.cb.mother.isSome = true ∧
      wMoonSB.mother = some 0 ∧ 0 < 0 + 1 ∧ (0 : ℚ) ≤ wMoonSB.cb.orbit_r) ∧
    ∃ b' mb, (wSysM.move 1 true).bodies[0 + 1]? = some b' ∧
      (wSysM.move 1 true).bodies[0]? = some mb ∧
      Vec3.mag (b'.pos - mb.pos) = ((wMoonSB.cb.orbit_r : ℚ) : ℝ) ∧
      b'.n = wMoonSB.n + 1 ∧
      ∀ a c : ℕ, a ≤ c → moonTheta a ≤ moonTheta c := by
  have hb : wSysM.bodies[0 + 1]? = some wMoonSB := by simp [wSysM]
  have hmoth : wMoonSB.cb.mother.isSome = true := rfl
  have hj : wMoonSB.mother = some 0 := rfl
  have hr : (0 : ℚ) ≤ wMoonSB.cb.orbit_r := by
    show (0 : ℚ) ≤ 1
    norm_num
  exact ⟨⟨hb, hmoth, hj, by norm_num, hr⟩,
    moon_circle_invariants wSysM 1 0 0 wMoonSB hb hmoth hj (by norm_num) hr⟩

/-- C4 as stated is false: the orbit angle does not strictly increase from
tick to tick.  Starting from phase counter 0, the angle used in tick 1 and
in tick 2 is identical (`n - n % 100` is constant across a block of 100
ticks), so two consecutive ticks place the moon at the identical
position. -/
theorem moon_angle_cx :
    (((wSysM.move 1 true).move 1 true).bodies[1]?).map SimBody.pos =
      ((wSysM.move 1 true).bodies[1]?).map SimBody.pos ∧
    ¬ (moonTheta 0 < moonTheta 1) := by
  have hth1 : moonTheta 1 = moonTheta 0 := by
    unfold moonTheta
    norm_num
  constructor
  · have hb : wSysM.bodies[0 + 1]? = some wMoonSB := by simp [wSysM]
    have hmoth : wMoonSB.cb.mother.isSome = true := rfl
    have hj : wMoonSB.mother = some 0 := rfl
    obtain ⟨mb, hmb, h1⟩ := move_get_moon wSysM 1 0 0 wMoonSB hb hmoth hj (by norm_num)
    have hmbeq : mb = wStarSB := by
      have hz := move_get_zero wSysM 1 true
      have h0 : wSysM.bodies[0]? = some wStarSB := by simp [wSysM]
      rw [hz, h0] at hmb
      exact (Option.some.inj hmb).symm
    subst hmbeq
    obtain ⟨mb2, hmb2, h2⟩ := move_get_moon (wSysM.move 1 true) 1 0 0 _ h1 rfl rfl
      (by norm_num)
    have hmb2eq : mb2 = wStarSB := by
      have hz2 := move_get_zero (wSysM.move 1 true) 1 true
      have hz := move_get_zero wSysM 1 true
      have h0 : wSysM.bodies[0]? = some wStarSB := by simp [wSysM]
      rw [hz2, hz, h0] at hmb2
      exact (Option.some.inj hmb2).symm
    subst hmb2eq
    rw [Nat.zero_add] at h1 h2
    rw [h1, h2]
    show some _ = some _
    rw [show wMoonSB.n + 1 = 1 from rfl, show wMoonSB.n = 0 from rfl, hth1]
  · rw [hth1]
    exact lt_irrefl _

/-! ### C5 -/

def wSun : CelestialBody := CelestialBody.init "Sun" 100 1000 "yellow" 0 0 none 0 false

def wPlanetA : CelestialBody := CelestialBody.init "PlanetA" 50 10 "blue" 2 500 none 0 false

def wPlanetB : CelestialBody := CelestialBody.init "PlanetB" 40 8 "red" 3 700 none 0 false

/-- C5: a 7-field moon record whose numeric fields parse, arriving when the
already-built list has at least one parentless body, appends exactly one
moon whose `mother` is the body found by the backward scan — and that scan
returns precisely the last (nearest preceding) parentless body of the
list. -/
theorem moon_parent_nearest_preceding (scaling : Bool) (acc : List CelestialBody)
    (rest : List (List String)) (tag nm orbs rads mss vels cols : String)
    (ov rv mv vv : ℚ) (mcb : CelestialBody)
    (hov : str2float orbs = some ov) (hrv : str2float rads = some rv)
    (hmv : str2float mss = some mv) (hvv : str2float vels = some vv)
    (hfm : findMother acc = some mcb) :
    planetsAux scaling acc ([tag, nm, orbs, rads, mss, vels, cols] :: rest) =
      planetsAux scaling
        (acc ++ [CelestialBody.init nm rv mv cols vv ov (some mcb) mcb.orbit_r scaling])
        rest ∧
    (CelestialBody.init nm rv mv cols vv ov (some mcb) mcb.orbit_r scaling).mother =
      some mcb ∧
    findMother acc = (acc.filter fun cb => cb.mother.isNone).getLast? := by
  refine ⟨?_, ?_, findMother_eq_getLast acc⟩
  · simp only [planetsAux, hov, hrv, hmv, hvv, hfm]
  · rfl

theorem moon_parent_nearest_preceding_witness :
    (str2float "20" = some 20 ∧ str2float "5" = some 5 ∧ str2float "1" = some 1 ∧
      str2float "1" = some 1 ∧
      findMother [wSun, wPlanetA, wPlanetB] = some wPlanetB) ∧
    planetsAux false [wSun, wPlanetA, wPlanetB]
        ([["Moon", "Luna", "20", "5", "1", "1", "gray"]]) =
      planetsAux false ([wSun, wPlanetA, wPlanetB] ++
        [CelestialBody.init "Luna" 5 1 "gray" 1 20 (some wPlanetB) wPlanetB.orbit_r false])
        [] ∧
    (CelestialBody.init "Luna" 5 1 "gray" 1 20 (some wPlanetB) wPlanetB.orbit_r
        false).mother = some wPlanetB ∧
    findMother [wSun, wPlanetA, wPlanetB] =
      ([wSun, wPlanetA, wPlanetB].filter fun cb => cb.mother.isNone).getLast? := by
  have h1 : str2float "20" = some 20 := by decide
  have h2 : str2float "5" = some 5 := by decide
  have h3 : str2float "1" = some 1 := by decide
  have hfm : findMother [wSun, wPlanetA, wPlanetB] = some wPlanetB := rfl
  exact ⟨⟨h1, h2, h3, h3, hfm⟩,
    moon_parent_nearest_preceding false [wSun, wPlanetA, wPlanetB] [] "Moon" "Luna" "20"
      "5" "1" "1" "gray" 20 5 1 1 wPlanetB h1 h2 h3 h3 hfm⟩

/-! ### C6 -/

/-- C6: a 7-field moon record arriving while the already-built list has no
parentless body makes parsing fail hard with the malformed-input error
(the source dies on the unbound scan variables), producing no body and no
simulation. -/
theorem moon_without_parent_fails (scaling : Bool) (acc : List CelestialBody)
    (rest : List (List String)) (tag nm orbs rads mss vels cols : String)
    (hfm : findMother acc = none) :
    planetsAux scaling acc ([tag, nm, orbs, rads, mss, vels, cols] :: rest) =
      .error .malformedInput := by
  rcases ho : str2float orbs with _ | ov <;>
    rcases hr : str2float rads with _ | rv <;>
      rcases hm : str2float mss with _ | mv <;>
        rcases hv : str2float vels with _ | vv <;>
          simp only [planetsAux, ho, hr, hm, hv, hfm]

theorem moon_without_parent_fails_witness :
    findMother ([] : List CelestialBody) = none ∧
    planets_from_file [["Moon", "Luna", "20", "5", "1", "1", "gray"]] false =
      .error .malformedInput :=
  ⟨rfl, moon_without_parent_fails false [] [] "Moon" "Luna" "20" "5" "1" "1" "gray" rfl⟩

/-! ### C7 -/

def wRand : ℕ → ℕ := fun _ => 0

def wInitCbs : List CelestialBody := [wStarCB, wMoonCB]

noncomputable def wInitStarSB : SimBody :=
  ⟨⟨((wStarCB.orbit_r + wStarCB.mother_radius : ℚ) : ℝ), 0, 0⟩,
    ((wStarCB.mass : ℚ) : ℝ) • (⟨0, ((wStarCB.v : ℚ) : ℝ), 0⟩ : Vec3), 0, wStarCB, none⟩

noncomputable def wInitMoonSB : SimBody :=
  ⟨⟨((wMoonCB.orbit_r + wMoonCB.mother_radius : ℚ) : ℝ), 0, 0⟩,
    ((wMoonCB.mass : ℚ) : ℝ) • (⟨0, ((wMoonCB.v : ℚ) : ℝ), 0⟩ : Vec3), 0, wMoonCB, some 0⟩

noncomputable def wSysInit : SystemState :=
  ⟨[wInitStarSB, wInitMoonSB], -(1 / 2 : ℝ), ((wStarCB.mass : ℚ) : ℝ)⟩

/-- C7: a parsed moon stores the resolved parent's own `orbit_r` (at
resolution time) as its `mother_radius`, keeps the parsed value as its own
`orbit_r` (scaling off), and `StarSystem.__init__` places every body at
initial position `(orbit_r + mother_radius, 0, 0)` — so the moon starts at
x = its orbit radius plus its parent's orbit radius. -/
theorem mother_radius_baseline (acc : List CelestialBody) (rest : List (List String))
    (tag nm orbs rads mss vels cols : String) (ov rv mv vv : ℚ) (mcb : CelestialBody)
    (hov : str2float orbs = some ov) (hrv : str2float rads = some rv)
    (hmv : str2float mss = some mv) (hvv : str2float vels = some vv)
    (hfm : findMother acc = some mcb)
    (cbs : List CelestialBody) (rand : ℕ → ℕ) (G : ℝ) (sys : SystemState) (i : ℕ)
    (sb : SimBody) (hinit : systemInit cbs rand G = some sys)
    (hsb : sys.bodies[i]? = some sb) :
    planetsAux false acc ([tag, nm, orbs, rads, mss, vels, cols] :: rest) =
      planetsAux false
        (acc ++ [CelestialBody.init nm rv mv cols vv ov (some mcb) mcb.orbit_r false])
        rest ∧
    (CelestialBody.init nm rv mv cols vv ov (some mcb) mcb.orbit_r
        false).mother_radius = mcb.orbit_r ∧
    (CelestialBody.init nm rv mv cols vv ov (some mcb) mcb.orbit_r false).orbit_r = ov ∧
    sb.pos = ⟨((sb.cb.orbit_r + sb.cb.mother_radius : ℚ) : ℝ), 0, 0⟩ := by
  refine ⟨?_, rfl, rfl, ?_⟩
  · simp only [planetsAux, hov, hrv, hmv, hvv, hfm]
  · exact (systemInit_body_init cbs rand G sys hinit i sb hsb).1

theorem mother_radius_baseline_witness :
    (str2float "20" = some 20 ∧ str2float "5" = some 5 ∧ str2float "1" = some 1 ∧
      str2float "1" = some 1 ∧
      findMother [wSun, wPlanetA, wPlanetB] = some wPlanetB ∧
      systemInit wInitCbs wRand (-(1 / 2 : ℝ)) = some wSysInit ∧
      wSysInit.bodies[1]? = some wInitMoonSB) ∧
    planetsAux false [wSun, wPlanetA, wPlanetB]
        ([["Moon", "Luna", "20", "5", "1", "1", "gray"]]) =
      planetsAux false ([wSun, wPlanetA, wPlanetB] ++
        [CelestialBody.init "Luna" 5 1 "gray" 1 20 (some wPlanetB) wPlanetB.orbit_r false])
        [] ∧
    (CelestialBody.init "Luna" 5 1 "gray" 1 20 (some wPlanetB) wPlanetB.orbit_r
        false).mother_radius = wPlanetB.orbit_r ∧
    (CelestialBody.init "Luna" 5 1 "gray" 1 20 (some wPlanetB) wPlanetB.orbit_r
        false).orbit_r = 20 ∧
    wInitMoonSB.pos =
      ⟨((wInitMoonSB.cb.orbit_r + wInitMoonSB.cb.mother_radius : ℚ) : ℝ), 0, 0⟩ := by
  have h1 : str2float "20" = some 20 := by decide
  have h2 : str2float "5" = some 5 := by decide
  have h3 : str2float "1" = some 1 := by decide
  have hfm : findMother [wSun, wPlanetA, wPlanetB] = some wPlanetB := rfl
  have hinit : systemInit wInitCbs wRand (-(1 / 2 : ℝ)) = some wSysInit := rfl
  have hsb : wSysInit.bodies[1]? = some wInitMoonSB := by simp [wSysInit]
  exact ⟨⟨h1, h2, h3, h3, hfm, hinit, hsb⟩,
    mother_radius_baseline [wSun, wPlanetA, wPlanetB] [] "Moon" "Luna" "20" "5" "1" "1"
      "gray" 20 5 1 1 wPlanetB h1 h2 h3 h3 hfm wInitCbs wRand (-(1 / 2 : ℝ)) wSysInit 1
      wInitMoonSB hinit hsb⟩

/-! ### C8 -/

/-- C8 (amended): the display-radius remapping is monotonic only within a
bucket: two radii for which the same branch of the condition chain fires
keep their order; across bucket thresholds the scaled value drops. -/
theorem scaled_radius_mono_within_bucket (r1 r2 : ℚ) (h1 : 0 < r1) (h2 : 0 < r2)
    (h12 : r1 ≤ r2) (hbkt : radiusBucket r1 = radiusBucket r2) :
    scaledRadius r1 ≤ scaledRadius r2 := by
  unfold scaledRadius radiusBucket at *
  split_ifs at hbkt ⊢ <;>
    first
    | exact mul_le_mul_of_nonneg_right h12 (by norm_num)
    | omega

theorem scaled_radius_mono_within_bucket_witness :
    (0 < (2 : ℚ) ∧ 0 < (3 : ℚ) ∧ (2 : ℚ) ≤ 3 ∧ radiusBucket 2 = radiusBucket 3) ∧
    scaledRadius 2 ≤ scaledRadius 3 := by
  have hb : radiusBucket 2 = radiusBucket 3 := by
    unfold radiusBucket
    norm_num
  exact ⟨⟨by norm_num, by norm_num, by norm_num, hb⟩,
    scaled_radius_mono_within_bucket 2 3 (by norm_num) (by norm_num) (by norm_num) hb⟩

/-- C8 as stated is false: the bucketed remapping is not monotonic — at the
first bucket threshold, radius 999 maps to 999 * 10^8 while the larger
radius 1000 maps only to 1000 * 10^6. -/
theorem scaled_radius_mono_cx :
    0 < (999 : ℚ) ∧ 0 < (1000 : ℚ) ∧ (999 : ℚ) ≤ 1000 ∧
      ¬ scaledRadius 999 ≤ scaledRadius 1000 := by
  refine ⟨by norm_num, by norm_num, by norm_num, ?_⟩
  unfold scaledRadius
  norm_num

/-! ### C9 -/

/-- C9: `StarSystem.start(n, dt)` performs exactly `n` integrator calls —
the loop state after `start` is the `n`-fold iterate of `move` — and then
leaves the loop and returns to the caller. -/
theorem start_performs_n_moves (s : SystemState) (n : ℕ) (dt : ℝ) (ms : Bool) :
    (s.start n dt ms).2 = n ∧
      (s.start n dt ms).1 = (fun st => st.move dt ms)^[n] s := by
  have h := startAux_eq dt ms n n 0 s (by omega)
  rw [SystemState.start, h]
  exact ⟨rfl, rfl⟩

/-! ### C10 -/

/-- C10: in circular-orbit mode a moon's momentum is never touched: after
any number of ticks its record and momentum are unchanged, and that
momentum is the `mass * (0, v, 0)` set at construction. -/
theorem moon_momentum_invariant (cbs : List CelestialBody) (rand : ℕ → ℕ) (G : ℝ)
    (sys : SystemState) (hinit : systemInit cbs rand G = some sys) (i : ℕ) (b : SimBody)
    (hb : sys.bodies[i]? = some b) (hmoth : b.cb.mother.isSome = true) (k : ℕ) (dt : ℝ) :
    ∃ b', ((fun st => st.move dt true)^[k] sys).bodies[i]? = some b' ∧
      b'.cb = b.cb ∧ b'.p = b.p ∧
      b.p = ((b.cb.mass : ℚ) : ℝ) • (⟨0, ((b.cb.v : ℚ) : ℝ), 0⟩ : Vec3) := by
  have hp0 := (systemInit_body_init cbs rand G sys hinit i b hb).2
  have main : ∀ k : ℕ, ∃ b',
      ((fun st => st.move dt true)^[k] sys).bodies[i]? = some b' ∧
      b'.cb = b.cb ∧ b'.p = b.p := by
    intro k
    induction k with
    | zero => exact ⟨b, by simpa using hb, rfl, rfl⟩
    | succ k' ih =>
      obtain ⟨b', hb', hcb', hp'⟩ := ih
      rw [Function.iterate_succ_apply']
      cases i with
      | zero =>
        refine ⟨b', ?_, hcb', hp'⟩
        rw [move_get_zero]
        exact hb'
      | succ i' =>
        obtain ⟨cur, hcur⟩ := move_get_frame _ dt true i' b' hb'
        have hcond : (b'.cb.mother.isSome && true) = true := by
          rw [hcb', hmoth]
          rfl
        exact ⟨_, hcur, (moveStep_cb _ _ _ _ _ _).trans hcb',
          (moveStep_moon_p _ _ _ _ _ _ hcond).trans hp'⟩
  obtain ⟨b', hb', hcb', hp'⟩ := main k
  exact ⟨b', hb', hcb', hp', hp0⟩

theorem moon_momentum_invariant_witness :
    (systemInit wInitCbs wRand (-(1 / 2 : ℝ)) = some wSysInit ∧
      wSysInit.bodies[1]? = some wInitMoonSB ∧
      wInitMoonSB.cb.mother.isSome = true) ∧
    ∃ b', ((fun st => st.move 1 true)^[2] wSysInit).bodies[1]? = some b' ∧
      b'.cb = wInitMoonSB.cb ∧ b'.p = wInitMoonSB.p ∧
      wInitMoonSB.p = ((wInitMoonSB.cb.mass : ℚ) : ℝ) •
        (⟨0, ((wInitMoonSB.cb.v : ℚ) : ℝ), 0⟩ : Vec3) := by
  have hinit : systemInit wInitCbs wRand (-(1 / 2 : ℝ)) = some wSysInit := rfl
  have hb : wSysInit.bodies[1]? = some wInitMoonSB := by simp [wSysInit]
  have hmoth : wInitMoonSB.cb.mother.isSome = true := rfl
  exact ⟨⟨hinit, hb, hmoth⟩,
    moon_momentum_invariant wInitCbs wRand (-(1 / 2 : ℝ)) wSysInit hinit 1 wInitMoonSB hb
      hmoth 2 1⟩

end StarSim
